import Mathlib

/-!
Verification development for the deploy pipeline in `src/viewer/deploy.py`.

The script is modelled as a pure transition function over an explicit
file-system state.  Strings are modelled as `List Char`; Python's
`str.replace` (which replaces every non-overlapping occurrence, scanning
left to right) is modelled by `Deploy.pyReplace` below, with an explicit
fuel argument so that the definition is structural and computable by the
kernel.
-/

namespace Deploy

/-- Abbreviation turning a Lean string literal into the `List Char` used
throughout the model. -/
def chars (s : String) : List Char := s.data

/-- Python's substring test `needle in hay`. -/
def containsSub (needle hay : List Char) : Bool := decide (needle <:+: hay)

/-- The absolute path `os.path.abspath("../target/web")` interpolated into
`STD_CODE`.  The path is environment dependent; the model fixes one concrete
POSIX-style value (so the `.replace('\\', '\\\\')` of the source is the
identity on it).  None of the results below depend on the particular
characters of this path. -/
def targetDirPath : List Char := chars "/project/target/web"

/-- The fixed prefix of the marker `STD_CODE` from line 7 of the script,
up to the opening quote of the interpolated absolute path. -/
def stdCodePrefix : List Char :=
  chars "\n[unstable]\nbuild-std = [\"std\", \"panic_abort\"]\n[build]\ntarget-dir = \""

/-- `STD_CODE` from line 7 of `deploy.py`: the marker text appended to
`../.cargo/config.toml`. -/
def STD_CODE : List Char := stdCodePrefix ++ targetDirPath ++ chars "\""

/-- The literal `"build-std"` tested by line 9, `if "build-std" not in config`. -/
def buildStd : List Char := chars "build-std"

/-- Lines 9-12 of the script: read the configuration, and if it does not
contain `"build-std"` as a substring, append `STD_CODE` and write it back.
Returns the new content together with whether a write occurred. -/
def ensurePatched (config : List Char) : List Char × Bool :=
  if containsSub buildStd config then (config, false)
  else (config ++ STD_CODE, true)

/-- Python's `s.replace(needle, repl)` on `List Char`, with fuel: scan left
to right; whenever `needle` is a prefix of the remaining input (and `needle`
is nonempty), emit `repl` and skip past that occurrence, otherwise keep one
character.  With `fuel ≥ s.length` the fuel never runs out.  (The script
only ever calls this with a nonempty `needle`, so the guard on
`needle.length ≠ 0` is never the deciding factor.) -/
def pyReplace (needle repl : List Char) : Nat → List Char → List Char
  | 0, s => s
  | _ + 1, [] => []
  | fuel + 1, c :: rest =>
    if needle.isPrefixOf (c :: rest) ∧ needle.length ≠ 0 then
      repl ++ pyReplace needle repl fuel (rest.drop (needle.length - 1))
    else
      c :: pyReplace needle repl fuel rest

/-- Python's `s.replace(needle, repl)`. -/
def strReplace (s needle repl : List Char) : List Char :=
  pyReplace needle repl s.length s

/-- Line 47 of the script, `config = config.replace(STD_CODE, '')`: the
content transformation performed by the restoration step in the `finally`
block. -/
def restore (config : List Char) : List Char := strReplace config STD_CODE []

/-- Python's `str(size)` for a non-negative integer: its decimal digits. -/
def natToStr (n : Nat) : List Char := (Nat.repr n).data

end Deploy

namespace Deploy

/-! Basic facts about `pyReplace`. -/

theorem pyReplace_nil (needle repl : List Char) (fuel : Nat) :
    pyReplace needle repl fuel [] = [] := by
  cases fuel <;> rfl

theorem pyReplace_not_contains {needle s : List Char} (repl : List Char) (fuel : Nat)
    (h : ¬ needle <:+: s) : pyReplace needle repl fuel s = s := by
  induction fuel generalizing s with
  | zero => rfl
  | succ fuel ih =>
    cases s with
    | nil => rfl
    | cons c rest =>
      have hpre : ¬ (needle.isPrefixOf (c :: rest) ∧ needle.length ≠ 0) := by
        rintro ⟨hp, -⟩
        exact h (List.IsPrefix.isInfix ( List.isPrefixOf_iff_prefix.mp hp))
      rw [pyReplace, if_neg hpre]
      have hrest : ¬ needle <:+: rest := fun hr => h (List.infix_cons hr)
      rw [ih hrest]

theorem pyReplace_fuel {needle repl : List Char} :
    ∀ {f1 f2 : Nat} {s : List Char}, s.length ≤ f1 → s.length ≤ f2 →
      pyReplace needle repl f1 s = pyReplace needle repl f2 s := by
  intro f1
  induction f1 with
  | zero =>
    intro f2 s h1 _
    have hs : s = [] := List.eq_nil_of_length_eq_zero (Nat.le_zero.mp h1)
    subst hs
    rw [pyReplace_nil, pyReplace_nil]
  | succ f1 ih =>
    intro f2 s h1 h2
    cases s with
    | nil => rw [pyReplace_nil, pyReplace_nil]
    | cons c rest =>
      cases f2 with
      | zero => exact absurd h2 (by simp)
      | succ f2 =>
        by_cases hc : needle.isPrefixOf (c :: rest) ∧ needle.length ≠ 0
        · rw [pyReplace, if_pos hc, pyReplace, if_pos hc]
          have hlen : (rest.drop (needle.length - 1)).length ≤ rest.length := by
            rw [List.length_drop]; omega
          have hr1 : (rest.drop (needle.length - 1)).length ≤ f1 := by
            have := Nat.le_of_succ_le_succ h1; simp only [List.length_cons] at h1; omega
          have hr2 : (rest.drop (needle.length - 1)).length ≤ f2 := by
            simp only [List.length_cons] at h2; omega
          rw [ih hr1 hr2]
        · rw [pyReplace, if_neg hc, pyReplace, if_neg hc]
          have hr1 : rest.length ≤ f1 := by simp only [List.length_cons] at h1; omega
          have hr2 : rest.length ≤ f2 := by simp only [List.length_cons] at h2; omega
          rw [ih hr1 hr2]

theorem strReplace_not_contains {needle s : List Char} (repl : List Char)
    (h : ¬ needle <:+: s) : strReplace s needle repl = s :=
  pyReplace_not_contains repl s.length h

/-! Combinatorial facts about the marker `STD_CODE`.  The literal
`"build-std"` occupies positions 12-20 of the marker, so any prefix of the
marker of length at least 21 contains it; and the marker has no period
shorter than 21, so no occurrence of the marker can straddle the boundary
between a `"build-std"`-free text and an appended copy of the marker. -/

set_option maxRecDepth 4000 in
theorem bs_in_take21 : buildStd <:+: STD_CODE.take 21 := by decide

set_option maxRecDepth 4000 in
theorem stdCode_len21 : 21 ≤ STD_CODE.length := by decide

theorem stdCode_ne_nil : STD_CODE ≠ [] := by decide

set_option maxRecDepth 10000 in
theorem stdCode_no_small_period :
    ∀ n, n < 21 → 0 < n → ¬ STD_CODE <+: (STD_CODE.take n ++ STD_CODE) := by decide

theorem bs_infix_stdCode : buildStd <:+: STD_CODE :=
  List.IsInfix.trans bs_in_take21 (List.IsPrefix.isInfix ( List.take_prefix 21 STD_CODE))

/-- If a text `t` does not contain `"build-std"`, then no occurrence of the
marker in `t ++ STD_CODE ++ r` can start inside `t`. -/
theorem no_straddle {t : List Char} (r : List Char) (ht : t ≠ [])
    (hbs : ¬ buildStd <:+: t) : ¬ STD_CODE <+: (t ++ (STD_CODE ++ r)) := by
  intro hpre
  have htake : STD_CODE = (t ++ (STD_CODE ++ r)).take STD_CODE.length :=
    List.prefix_iff_eq_take.mp hpre
  rcases Nat.lt_or_ge t.length STD_CODE.length with hnL | hnL
  · have ht_eq : t = STD_CODE.take t.length := by
      have h1 : STD_CODE.take t.length
          = ((t ++ (STD_CODE ++ r)).take STD_CODE.length).take t.length := by
        rw [← htake]
      rw [List.take_take, Nat.min_eq_left (Nat.le_of_lt hnL), List.take_left] at h1
      exact h1.symm
    have hpre2 : STD_CODE <+: (STD_CODE.take t.length ++ STD_CODE) := by
      rw [List.prefix_iff_eq_take]
      calc STD_CODE = (t ++ (STD_CODE ++ r)).take STD_CODE.length := htake
        _ = ((t ++ STD_CODE) ++ r).take STD_CODE.length := by
            rw [List.append_assoc]
        _ = (t ++ STD_CODE).take STD_CODE.length :=
            List.take_append_of_le_length (by simp)
        _ = (STD_CODE.take t.length ++ STD_CODE).take STD_CODE.length := by
            rw [← ht_eq]
    rcases Nat.lt_or_ge t.length 21 with h21 | h21
    · exact stdCode_no_small_period t.length h21 (List.length_pos.mpr ht) hpre2
    · have hp : STD_CODE.take 21 <+: STD_CODE.take t.length := by
        rw [List.prefix_iff_eq_take]
        have hl21 : (STD_CODE.take 21).length = 21 := by
          rw [List.length_take]
          exact Nat.min_eq_left stdCode_len21
        rw [hl21, List.take_take, Nat.min_eq_left h21]
      have hb : buildStd <:+: t := by
        rw [ht_eq]
        exact List.IsInfix.trans bs_in_take21 (List.IsPrefix.isInfix hp)
      exact hbs hb
  · have hpt : STD_CODE <+: t := by
      rw [List.prefix_iff_eq_take]
      rw [List.take_append_of_le_length hnL] at htake
      exact htake
    exact hbs (List.IsInfix.trans bs_infix_stdCode (List.IsPrefix.isInfix hpt))

/-- Replacing the marker by the empty string in `t ++ STD_CODE ++ r` removes
the marker occurrence at the boundary and continues in `r`, provided `t` is
free of `"build-std"`. -/
theorem pyReplace_skip_marker {t : List Char} (r : List Char) (fuel : Nat)
    (hbs : ¬ buildStd <:+: t)
    (hfuel : t.length + STD_CODE.length + r.length ≤ fuel) :
    pyReplace STD_CODE [] fuel (t ++ (STD_CODE ++ r))
      = t ++ pyReplace STD_CODE [] fuel r := by
  induction t generalizing fuel with
  | nil =>
    obtain ⟨sc0, scTail, hsc⟩ := List.exists_cons_of_ne_nil stdCode_ne_nil
    have hL : 1 ≤ STD_CODE.length := by rw [hsc]; simp
    cases fuel with
    | zero => omega
    | succ f =>
      have hcons : ([] : List Char) ++ (STD_CODE ++ r) = sc0 :: (scTail ++ r) := by
        rw [List.nil_append, hsc, List.cons_append]
      rw [hcons, pyReplace, if_pos]
      · have hdrop : (scTail ++ r).drop (STD_CODE.length - 1) = r := by
          apply List.drop_left'
          rw [hsc]; simp
        rw [hdrop]
        have hr1 : r.length ≤ f := by omega
        rw [pyReplace_fuel hr1 (by omega : r.length ≤ f + 1)]
      · constructor
        · rw [← hcons, List.nil_append]
          exact List.isPrefixOf_iff_prefix.mpr (List.prefix_append STD_CODE r)
        · omega
  | cons c t' ih =>
    have hL : 1 ≤ STD_CODE.length := Nat.le_trans (by omega) stdCode_len21
    cases fuel with
    | zero => simp only [List.length_cons] at hfuel; omega
    | succ f =>
      have hcons : (c :: t') ++ (STD_CODE ++ r) = c :: (t' ++ (STD_CODE ++ r)) := by
        rw [List.cons_append]
      rw [hcons, pyReplace, if_neg]
      · have hbs' : ¬ buildStd <:+: t' := fun hr => hbs (List.infix_cons hr)
        have hfuel' : t'.length + STD_CODE.length + r.length ≤ f := by
          simp only [List.length_cons] at hfuel; omega
        rw [ih f hbs' hfuel']
        have hr1 : r.length ≤ f := by omega
        rw [pyReplace_fuel hr1 (by omega : r.length ≤ f + 1), List.cons_append]
      · rintro ⟨hp, -⟩
        rw [← hcons] at hp
        exact no_straddle r (by simp) hbs ( List.isPrefixOf_iff_prefix.mp hp)

theorem strReplace_append_marker {t : List Char} (r : List Char)
    (hbs : ¬ buildStd <:+: t) :
    strReplace (t ++ (STD_CODE ++ r)) STD_CODE []
      = t ++ strReplace r STD_CODE [] := by
  unfold strReplace
  rw [pyReplace_skip_marker r _ hbs (by simp [List.length_append]; omega)]
  have h1 : r.length ≤ (t ++ (STD_CODE ++ r)).length := by
    simp [List.length_append]; omega
  rw [pyReplace_fuel h1 (Nat.le_refl r.length)]

/-- Restoration is the identity on content free of the marker. -/
theorem restore_id {c : List Char} (h : ¬ STD_CODE <:+: c) : restore c = c :=
  strReplace_not_contains [] h

/-- Restoration removes exactly the appended marker from a patched
configuration whose original content was free of `"build-std"`. -/
theorem restore_patched {c : List Char} (hbs : ¬ buildStd <:+: c) :
    restore (c ++ STD_CODE) = c := by
  have h : c ++ STD_CODE = c ++ (STD_CODE ++ []) := by simp
  rw [restore, h, strReplace_append_marker [] hbs]
  simp [strReplace, pyReplace_nil]

/-! The artifact locator (line 22 of the script). -/

/-- Line 22, the generator expression filter `f.endswith(".wasm")` applied
by `next(f for f in os.listdir("dist") if f.endswith(".wasm"))`: the first
directory entry whose name ends in `".wasm"`. -/
def findWasm (names : List (List Char)) : Option (List Char) :=
  names.find? (fun n => (chars ".wasm").isSuffixOf n)

/-- Line 22, the slice `[:-len("_bg.wasm")]`: drop the last 8 characters
(Python gives the empty string when the name has at most 8 characters). -/
def stemOf (f : List Char) : List Char := f.take (f.length - 8)

/-- The whole of line 22: the artifact stem `outfile_name`, or `none` when
the `next(...)` call raises `StopIteration`. -/
def findPrimaryArtifactStem (names : List (List Char)) : Option (List Char) :=
  (findWasm names).map stemOf

/-! The generated `.htaccess` fragment (lines 25-37 of the script).  The
f-string is split at its interpolation points `{size}`, `{outfile_name}`,
`{outfile_name}`. -/

def fragPart1 : List Char :=
  chars "\n<FilesMatch \"graph_n4j\\.bin\\.br\">\n    Header append X-file-size \""

def fragPart2 : List Char :=
  chars "\"\n</FilesMatch>\n<FilesMatch \"(index\\.html)|(viewer-.*\\.js)\">\n\tHeader set Pragma \"no-cache\"\n</FilesMatch>\nRewriteEngine On\nRewriteRule viewer_bg\\.wasm$ "

def fragPart3 : List Char :=
  chars "_bg.wasm [L]\nRewriteCond %\x7bHTTP_REFERER\x7d workerHelpers.worker.js$\nRewriteRule ^$ "

def fragPart4 : List Char := chars ".js [L]\n        "

/-- The interpolated f-string written after the template (lines 26-37). -/
def fragment (size : Nat) (outfile : List Char) : List Char :=
  fragPart1 ++ natToStr size ++ fragPart2 ++ outfile ++ fragPart3 ++ outfile ++ fragPart4

/-- Lines 23-37: the full content written to `Z:\web\network5\.htaccess`,
the static template followed by the interpolated fragment. -/
def generate (tmpl : List Char) (size : Nat) (outfile : List Char) : List Char :=
  tmpl ++ fragment size outfile

/-! Directories are modelled as association lists from relative path (with
`'/'` as separator for entries inside subdirectories) to byte content. -/

/-- A directory entry: relative path and file content. -/
abbrev Entry := List Char × List Char

/-- A directory tree, as a list of entries. -/
abbrev Dir := List Entry

/-- Content of the file named `k`, if present. -/
def lookup (d : Dir) (k : List Char) : Option (List Char) :=
  match d with
  | [] => none
  | p :: rest => if p.1 = k then some p.2 else lookup rest k

/-- Write file `k` with content `v`, overwriting an existing entry. -/
def upsert (d : Dir) (k : List Char) (v : List Char) : Dir :=
  match d with
  | [] => [(k, v)]
  | p :: rest => if p.1 = k then (k, v) :: rest else p :: upsert rest k v

/-- Recursive copy (`xcopy /s /y`): every file of `src` is written into `d`,
overwriting files of the same name. -/
def copyInto (src d : Dir) : Dir := src.foldl (fun acc p => upsert acc p.1 p.2) d

/-- Whether a path names a file inside a subdirectory. -/
def hasSlash (n : List Char) : Bool := n.contains '/'

/-! The pipeline state machine. -/

/-- Observable steps of a run, recorded in order of completion. -/
inductive Event where
  | patch
  | build
  | clearDest
  | copyDist
  | copyAssets
  | locate
  | generate
  | restore
deriving DecidableEq

/-- Environment conditions injected into a run: exit codes of the four
external subprocesses (`check=True` raises exactly when the exit code is
nonzero), whether `os.path.getsize("../graph_n4j.bin")` fails because the
asset is missing, and whether writing the generated `.htaccess` fails. -/
structure Inject where
  sizeReadFails : Bool
  buildExit : Nat
  delExit : Nat
  copyDistExit : Nat
  copyAssetsExit : Nat
  genFails : Bool
deriving DecidableEq

/-- The exceptions the script can propagate. -/
inductive PipeError where
  | fileNotFound
  | calledProcessError (cmd : List String) (returncode : Nat)
  | stopIteration
  | osError
deriving DecidableEq

/-- The file-system state touched by the script. -/
structure FS where
  /-- Content of `../.cargo/config.toml`. -/
  config : List Char
  /-- Content of the `file_size` marker file, when it exists. -/
  fileSize : Option (List Char)
  /-- Byte size of `../graph_n4j.bin`. -/
  binSize : Nat
  /-- The `dist` directory as produced by a successful build. -/
  distFiles : Dir
  /-- The static `assets` directory. -/
  assetFiles : Dir
  /-- The destination directory `Z:\web\network5`. -/
  destFiles : Dir
  /-- Content of the local `.htaccess` template. -/
  htaccessTemplate : List Char
deriving DecidableEq

def trunkBuildCmd : List String := ["trunk", "build"]

def delCmd : List String := ["cmd", "/c", "del", "Z:\\web\\network5\\*", "/Q"]

def xcopyDistCmd : List String := ["xcopy", "dist\\*.*", "Z:\\web\\network5\\", "/s", "/y"]

def xcopyAssetsCmd : List String := ["xcopy", "assets\\*.*", "Z:\\web\\network5\\", "/s", "/y"]

/-- Name of the generated file inside the destination directory. -/
def htaccessName : List Char := chars ".htaccess"

/-- The body of the `try:` block, lines 15-37: size read, size-file write,
build, destination clear, the two recursive copies, artifact location, and
the `.htaccess` generation.  Each subprocess raises
`CalledProcessError` when its injected exit code is nonzero; `del` failing
is modelled as leaving the destination unchanged.  Events are recorded when
a step completes. -/
def tryBody (inj : Inject) (fs : FS) : Except PipeError Unit × FS × List Event :=
  if inj.sizeReadFails then (Except.error PipeError.fileNotFound, fs, [])
  else
  let fs1 : FS := { fs with fileSize := some (natToStr fs.binSize) }
  if inj.buildExit ≠ 0 then
    (Except.error (PipeError.calledProcessError trunkBuildCmd inj.buildExit), fs1, [])
  else
  if inj.delExit ≠ 0 then
    (Except.error (PipeError.calledProcessError delCmd inj.delExit), fs1, [Event.build])
  else
  let fs2 : FS := { fs1 with destFiles := fs1.destFiles.filter (fun p => hasSlash p.1) }
  if inj.copyDistExit ≠ 0 then
    (Except.error (PipeError.calledProcessError xcopyDistCmd inj.copyDistExit), fs2,
      [Event.build, Event.clearDest])
  else
  let fs3 : FS := { fs2 with destFiles := copyInto fs2.distFiles fs2.destFiles }
  if inj.copyAssetsExit ≠ 0 then
    (Except.error (PipeError.calledProcessError xcopyAssetsCmd inj.copyAssetsExit), fs3,
      [Event.build, Event.clearDest, Event.copyDist])
  else
  let fs4 : FS := { fs3 with destFiles := copyInto fs3.assetFiles fs3.destFiles }
  match findWasm (fs4.distFiles.map Prod.fst) with
  | none =>
      (Except.error PipeError.stopIteration, fs4,
        [Event.build, Event.clearDest, Event.copyDist, Event.copyAssets])
  | some f =>
      if inj.genFails then
        (Except.error PipeError.osError, fs4,
          [Event.build, Event.clearDest, Event.copyDist, Event.copyAssets, Event.locate])
      else
        (Except.ok (),
          { fs4 with destFiles := (upsert fs4.destFiles htaccessName
              (generate fs4.htaccessTemplate fs4.binSize (stemOf f))) },
          [Event.build, Event.clearDest, Event.copyDist, Event.copyAssets, Event.locate,
            Event.generate])

/-- The `finally:` block, lines 41-50: `os.remove("file_size")` — which
raises `FileNotFoundError`, replacing any in-flight exception and skipping
the restoration, when the size file was never created — followed by the
read-strip-write restoration of the configuration. -/
def runFinally (r : Except PipeError Unit) (fs : FS) (tr : List Event) :
    Except PipeError Unit × FS × List Event :=
  match fs.fileSize with
  | none => (Except.error PipeError.fileNotFound, fs, tr)
  | some _ =>
      (r, { fs with fileSize := none, config := restore fs.config }, tr ++ [Event.restore])

/-- The whole script: conditional patch (lines 4-12), `try` body, `finally`
block.  Returns the propagated result, the final file-system state, and the
event trace. -/
def runPipeline (inj : Inject) (fs0 : FS) : Except PipeError Unit × FS × List Event :=
  let p := ensurePatched fs0.config
  let fs1 : FS := { fs0 with config := p.1 }
  let tr1 : List Event := if p.2 then [Event.patch] else []
  let r := tryBody inj fs1
  runFinally r.1 r.2.1 (tr1 ++ r.2.2)

/-! Frame lemmas about the `try` body and the pipeline. -/

theorem containsSub_iff {n h : List Char} : containsSub n h = true ↔ n <:+: h := by
  simp [containsSub]

theorem ensurePatched_of_contains {config : List Char} (h : buildStd <:+: config) :
    ensurePatched config = (config, false) := by
  rw [ensurePatched, if_pos (containsSub_iff.mpr h)]

theorem ensurePatched_of_not_contains {config : List Char} (h : ¬ buildStd <:+: config) :
    ensurePatched config = (config ++ STD_CODE, true) := by
  rw [ensurePatched, if_neg]
  intro hc
  exact h (containsSub_iff.mp hc)

theorem tryBody_config (inj : Inject) (fs : FS) :
    (tryBody inj fs).2.1.config = fs.config := by
  unfold tryBody
  dsimp only
  repeat' split <;> try rfl

theorem tryBody_distFiles (inj : Inject) (fs : FS) :
    (tryBody inj fs).2.1.distFiles = fs.distFiles := by
  unfold tryBody
  dsimp only
  repeat' split <;> try rfl

theorem tryBody_fileSize (inj : Inject) (fs : FS) (h : inj.sizeReadFails = false) :
    (tryBody inj fs).2.1.fileSize = some (natToStr fs.binSize) := by
  unfold tryBody
  rw [h]
  dsimp only
  repeat' split <;> try rfl
  all_goals rename_i hh
  all_goals exact absurd hh (by decide)

theorem tryBody_count_restore (inj : Inject) (fs : FS) :
    ((tryBody inj fs).2.2).count Event.restore = 0 := by
  unfold tryBody
  dsimp only
  repeat' split <;> try rfl

theorem tryBody_buildFail (inj : Inject) (fs : FS) (h1 : inj.sizeReadFails = false)
    (hb : inj.buildExit ≠ 0) :
    tryBody inj fs
      = (Except.error (PipeError.calledProcessError trunkBuildCmd inj.buildExit),
          { fs with fileSize := some (natToStr fs.binSize) }, []) := by
  unfold tryBody
  rw [h1]
  simp only [Bool.false_eq_true, if_false, if_pos hb]

theorem tryBody_success (inj : Inject) (fs : FS) (f : List Char)
    (h1 : inj.sizeReadFails = false) (h2 : inj.buildExit = 0) (h3 : inj.delExit = 0)
    (h4 : inj.copyDistExit = 0) (h5 : inj.copyAssetsExit = 0) (h6 : inj.genFails = false)
    (hf : findWasm (fs.distFiles.map Prod.fst) = some f) :
    tryBody inj fs
      = (Except.ok (),
          { fs with
              fileSize := some (natToStr fs.binSize)
              destFiles := (upsert
                (copyInto fs.assetFiles (copyInto fs.distFiles
                  (fs.destFiles.filter (fun p => hasSlash p.1))))
                htaccessName
                (generate fs.htaccessTemplate fs.binSize (stemOf f))) },
          [Event.build, Event.clearDest, Event.copyDist, Event.copyAssets, Event.locate,
            Event.generate]) := by
  unfold tryBody
  rw [h1, h2, h3, h4, h5, h6]
  simp only [Bool.false_eq_true, if_false, ne_eq, not_true_eq_false, not_false_eq_true,
    reduceIte]
  rw [hf]

theorem runPipeline_eq (inj : Inject) (fs0 : FS) :
    runPipeline inj fs0
      = runFinally (tryBody inj { fs0 with config := (ensurePatched fs0.config).1 }).1
          (tryBody inj { fs0 with config := (ensurePatched fs0.config).1 }).2.1
          ((if (ensurePatched fs0.config).2 then [Event.patch] else [])
            ++ (tryBody inj { fs0 with config := (ensurePatched fs0.config).1 }).2.2) := rfl

theorem runFinally_some {fs : FS} {v : List Char} (r : Except PipeError Unit)
    (tr : List Event) (h : fs.fileSize = some v) :
    runFinally r fs tr
      = (r, { fs with fileSize := none, config := restore fs.config },
          tr ++ [Event.restore]) := by
  rw [runFinally, h]

theorem runFinally_none {fs : FS} (r : Except PipeError Unit) (tr : List Event)
    (h : fs.fileSize = none) :
    runFinally r fs tr = (Except.error PipeError.fileNotFound, fs, tr) := by
  rw [runFinally, h]

/-- The final configuration content of any run whose size read succeeded:
the patched (or as-found) configuration with the marker replaced away. -/
theorem runPipeline_config_eq (inj : Inject) (fs0 : FS)
    (h1 : inj.sizeReadFails = false) :
    (runPipeline inj fs0).2.1.config = restore (ensurePatched fs0.config).1 := by
  rw [runPipeline_eq]
  rw [runFinally_some _ _
    (tryBody_fileSize inj { fs0 with config := (ensurePatched fs0.config).1 } h1)]
  dsimp only
  rw [tryBody_config]

/-! Concrete fixtures for counterexamples and witnesses. -/

/-- A run with no injected failure. -/
def injNone : Inject :=
  { sizeReadFails := false, buildExit := 0, delExit := 0, copyDistExit := 0,
    copyAssetsExit := 0, genFails := false }

/-- A run whose `.htaccess` generation fails. -/
def injGenFail : Inject := { injNone with genFails := true }

/-- A run whose build tool exits with code 1. -/
def injBuildFail : Inject := { injNone with buildExit := 1 }

/-- A run where `../graph_n4j.bin` is missing, so its size read fails. -/
def injSizeFail : Inject := { injNone with sizeReadFails := true }

/-- A state whose configuration file already consists of the marker itself
(for example, left behind by an earlier run that was killed before its
cleanup could run). -/
def fsMarked : FS :=
  { config := STD_CODE, fileSize := none, binSize := 5,
    distFiles := [(chars "viewer-a_bg.wasm", chars "w")], assetFiles := [],
    destFiles := [], htaccessTemplate := chars "T" }

/-- A state whose configuration file holds unrelated content. -/
def fsPlain : FS :=
  { config := chars "x = 1", fileSize := none, binSize := 3,
    distFiles := [(chars "viewer-a_bg.wasm", chars "w")], assetFiles := [],
    destFiles := [], htaccessTemplate := chars "T" }

end Deploy

namespace Deploy

/-- C1 (corrected, amendment): for every pre-run configuration content that
does not contain the marker `STD_CODE` as a substring, and any injected
failure point among build failure, locator failure, publish failure and
generation failure (as well as success) — all of which leave the size file
in place, `sizeReadFails = false` — after the pipeline returns the
configuration file's byte content equals its content before the pipeline
started, byte-for-byte. -/
theorem c1_restoration_invariant (inj : Inject) (fs0 : FS)
    (hsize : inj.sizeReadFails = false)
    (hconf : ¬ STD_CODE <:+: fs0.config) :
    (runPipeline inj fs0).2.1.config = fs0.config := by
  rw [runPipeline_config_eq inj fs0 hsize]
  by_cases hc : buildStd <:+: fs0.config
  · rw [ensurePatched_of_contains hc]
    exact restore_id hconf
  · rw [ensurePatched_of_not_contains hc]
    exact restore_patched hc

set_option maxRecDepth 20000 in
/-- C1 counterexample: when the pre-run configuration content is the marker
itself, an injected generation failure leaves the configuration empty after
the run, not equal to its pre-run content: line 47 strips the pre-existing
marker even though this run never appended one. -/
theorem c1_counterexample :
    (runPipeline injGenFail fsMarked).2.1.config = [] ∧ fsMarked.config ≠ [] := by
  constructor
  · decide
  · decide

/-- C1 witness: a concrete build-failure run over marker-free content. -/
theorem c1_witness :
    (runPipeline injBuildFail fsPlain).2.1.config = fsPlain.config :=
  c1_restoration_invariant injBuildFail fsPlain rfl (by decide)

/-- C2 (corrected, amendment): on normal completion and on every failure
raised after the size file `file_size` has been created (in particular on
build, locator, publish and generation failures), the restoration step is
invoked exactly once before the run terminates.  When the initial
`os.path.getsize` call fails, the cleanup's `os.remove("file_size")` itself
raises and the restoration step is skipped. -/
theorem c2_restore_once (inj : Inject) (fs0 : FS)
    (hsize : inj.sizeReadFails = false) :
    ((runPipeline inj fs0).2.2).count Event.restore = 1 := by
  rw [runPipeline_eq]
  rw [runFinally_some _ _
    (tryBody_fileSize inj { fs0 with config := (ensurePatched fs0.config).1 } hsize)]
  dsimp only
  rw [List.count_append, List.count_append, tryBody_count_restore]
  have h1 : ((if (ensurePatched fs0.config).2 then [Event.patch] else []) : List Event).count
      Event.restore = 0 := by
    split <;> rfl
  rw [h1]
  rfl

set_option maxRecDepth 20000 in
/-- C2 counterexample: when the size read of `../graph_n4j.bin` fails — an
error raised after the configuration has been patched — the `finally`
block's `os.remove("file_size")` raises before the restoration step, which
is therefore invoked zero times, and the configuration is left patched. -/
theorem c2_counterexample :
    ((runPipeline injSizeFail fsPlain).2.2).count Event.restore = 0 ∧
    (runPipeline injSizeFail fsPlain).2.1.config = fsPlain.config ++ STD_CODE := by
  constructor
  · decide
  · decide

/-- C2 witness: a concrete generation-failure run. -/
theorem c2_witness :
    ((runPipeline injGenFail fsPlain).2.2).count Event.restore = 1 :=
  c2_restore_once injGenFail fsPlain rfl

/-- C9 (corrected, amendment): if the external build tool exits non-zero,
the propagated error is the `CalledProcessError` of `["trunk", "build"]`
carrying that exit code and no entry of the destination directory is
deleted, created or modified — both for every pre-run configuration
content — and, provided the pre-run configuration did not already contain
the marker as a substring, the configuration file is restored to its
pre-run content. -/
theorem c9_build_failure_frame (inj : Inject) (fs0 : FS)
    (hsize : inj.sizeReadFails = false) (hb : inj.buildExit ≠ 0) :
    (runPipeline inj fs0).1
        = Except.error (PipeError.calledProcessError trunkBuildCmd inj.buildExit)
      ∧ (runPipeline inj fs0).2.1.destFiles = fs0.destFiles
      ∧ (¬ STD_CODE <:+: fs0.config → (runPipeline inj fs0).2.1.config = fs0.config) := by
  rw [runPipeline_eq, tryBody_buildFail _ _ hsize hb, runFinally_some _ _ rfl]
  refine ⟨rfl, rfl, ?_⟩
  intro hconf
  dsimp only
  by_cases hc : buildStd <:+: fs0.config
  · rw [ensurePatched_of_contains hc]
    exact restore_id hconf
  · rw [ensurePatched_of_not_contains hc]
    exact restore_patched hc

set_option maxRecDepth 20000 in
/-- C9 counterexample: a build failure over a configuration that already
consists of the marker does not restore the pre-run content — the `finally`
block strips the pre-existing marker. -/
theorem c9_counterexample :
    (runPipeline injBuildFail fsMarked).2.1.config = [] ∧ fsMarked.config ≠ [] := by
  constructor
  · decide
  · decide

/-- C9 witness: a concrete build-failure run over marker-free content. -/
theorem c9_witness :
    (runPipeline injBuildFail fsPlain).1
        = Except.error (PipeError.calledProcessError trunkBuildCmd 1)
      ∧ (runPipeline injBuildFail fsPlain).2.1.destFiles = fsPlain.destFiles
      ∧ (runPipeline injBuildFail fsPlain).2.1.config = fsPlain.config :=
  ⟨(c9_build_failure_frame injBuildFail fsPlain rfl (by decide)).1,
    (c9_build_failure_frame injBuildFail fsPlain rfl (by decide)).2.1,
    (c9_build_failure_frame injBuildFail fsPlain rfl (by decide)).2.2 (by decide)⟩

end Deploy

namespace Deploy

/-- C3 (corrected, amendment): `restore` removes every occurrence of the
literal marker string, scanning left to right over non-overlapping
occurrences — not only the first one — and leaves the content between and
around the removed occurrences byte-identical.  Stated for content made of
`"build-std"`-free segments around two marker occurrences. -/
theorem c3_restore_removes_all (a b c : List Char)
    (ha : ¬ buildStd <:+: a) (hb : ¬ buildStd <:+: b)
    (hc : ¬ STD_CODE <:+: c) :
    restore (a ++ (STD_CODE ++ (b ++ (STD_CODE ++ c)))) = a ++ (b ++ c) := by
  rw [restore, strReplace_append_marker _ ha, strReplace_append_marker _ hb,
    strReplace_not_contains _ hc]

set_option maxRecDepth 20000 in
/-- C3 counterexample: on content consisting of two adjacent copies of the
marker, `restore` (line 47, `config.replace(STD_CODE, '')` with no count
argument) returns the empty string, not the single remaining copy that
removing only the first occurrence would leave. -/
theorem c3_counterexample :
    restore (STD_CODE ++ STD_CODE) = [] ∧ STD_CODE ≠ [] := by
  constructor
  · decide
  · decide

/-- C3 witness: both marker occurrences disappear from concrete content. -/
theorem c3_witness :
    restore (chars "A" ++ (STD_CODE ++ (chars "B" ++ (STD_CODE ++ chars "C"))))
      = chars "A" ++ (chars "B" ++ chars "C") :=
  c3_restore_removes_all (chars "A") (chars "B") (chars "C")
    (by decide) (by decide) (by decide)

/-- C4 (corrected, amendment): `ensurePatched` appends the marker and
writes the file back if and only if the content does not contain the
substring `"build-std"` (not: does not contain the marker itself); in
particular, content that contains the full marker — which contains
`"build-std"` — is never patched. -/
theorem c4_patch_condition (config : List Char) :
    ((ensurePatched config).2 = true ↔ ¬ buildStd <:+: config)
    ∧ ((ensurePatched config).2 = true → (ensurePatched config).1 = config ++ STD_CODE)
    ∧ ((ensurePatched config).2 = false → (ensurePatched config).1 = config)
    ∧ (STD_CODE <:+: config → (ensurePatched config).2 = false) := by
  by_cases hc : buildStd <:+: config
  · rw [ensurePatched_of_contains hc]
    exact ⟨by simp [hc], by simp, fun _ => rfl, fun _ => rfl⟩
  · rw [ensurePatched_of_not_contains hc]
    refine ⟨by simp [hc], fun _ => rfl, by simp, ?_⟩
    intro hm
    exact absurd (List.IsInfix.trans bs_infix_stdCode hm) hc

/-- C4 counterexample: content equal to the bare string `"build-std"` does
not contain the marker as a substring, yet `ensurePatched` performs no
append and no write, because line 9 tests for the substring `"build-std"`
rather than for the marker. -/
theorem c4_counterexample :
    (ensurePatched (chars "build-std")).2 = false
    ∧ ¬ STD_CODE <:+: chars "build-std" := by
  constructor
  · decide
  · decide

/-- C4 witness: content equal to the marker itself is reported unpatched. -/
theorem c4_witness : (ensurePatched STD_CODE).2 = false :=
  (c4_patch_condition STD_CODE).2.2.2 List.infix_rfl

/-- C7 (confirmed): for a directory listing that contains the entry
`viewer-ab12cd_bg.wasm`, in any order, and in which that entry is the only
one ending in the locator's filter suffix `.wasm` (so that it is the first
qualifying filename in every iteration order), `findPrimaryArtifactStem`
returns `viewer-ab12cd` — the entry with the trailing 8 characters
`_bg.wasm` stripped. -/
theorem c7_artifact_stem (names : List (List Char))
    (hmem : chars "viewer-ab12cd_bg.wasm" ∈ names)
    (honly : ∀ n ∈ names, (chars ".wasm").isSuffixOf n = true →
      n = chars "viewer-ab12cd_bg.wasm") :
    findPrimaryArtifactStem names = some (chars "viewer-ab12cd") := by
  unfold findPrimaryArtifactStem findWasm
  cases hf : names.find? (fun n => (chars ".wasm").isSuffixOf n) with
  | none =>
    rw [List.find?_eq_none] at hf
    exact absurd
      (by decide : (chars ".wasm").isSuffixOf (chars "viewer-ab12cd_bg.wasm") = true)
      (hf _ hmem)
  | some y =>
    have hy : (chars ".wasm").isSuffixOf y = true := List.find?_some hf
    have hmemy : y ∈ names := List.mem_of_find?_eq_some hf
    have hyv : y = chars "viewer-ab12cd_bg.wasm" := honly y hmemy hy
    subst hyv
    decide

/-- C7 witness: a two-entry listing with the qualifying file second. -/
theorem c7_witness :
    findPrimaryArtifactStem [chars "index.html", chars "viewer-ab12cd_bg.wasm"]
      = some (chars "viewer-ab12cd") :=
  c7_artifact_stem _ (by decide) (by decide)

/-- C10 (confirmed): the locator selects the first entry ending in `.wasm`
(not specifically `_bg.wasm`) and unconditionally removes its final 8
characters; when the selected entry does not end in `_bg.wasm`, the
returned stem is the filename truncated mid-name — the removed tail has
length 8 but is not the artifact suffix `_bg.wasm`. -/
theorem c10_wasm_truncation (names : List (List Char)) (f : List Char)
    (hf : findWasm names = some f)
    (hnb : ¬ (chars "_bg.wasm") <:+ f)
    (hlen : 8 ≤ f.length) :
    findPrimaryArtifactStem names = some (f.take (f.length - 8))
    ∧ f = f.take (f.length - 8) ++ f.drop (f.length - 8)
    ∧ (f.drop (f.length - 8)).length = 8
    ∧ f.drop (f.length - 8) ≠ chars "_bg.wasm" := by
  refine ⟨?_, (List.take_append_drop _ f).symm, ?_, ?_⟩
  · rw [findPrimaryArtifactStem, hf]
    rfl
  · rw [List.length_drop]
    omega
  · intro he
    apply hnb
    rw [← he]
    exact List.drop_suffix _ _

/-- C10 witness: `myapp.wasm` is selected and truncated to `my`. -/
theorem c10_witness :
    findPrimaryArtifactStem [chars "myapp.wasm"] = some (chars "my") :=
  (c10_wasm_truncation [chars "myapp.wasm"] (chars "myapp.wasm")
    rfl (by decide) (by decide)).1

/-- C8 (confirmed): for every template, every artifact stem and every
asset byte size, the generated fragment contains the header directive
block matching the compressed-binary filename pattern with the decimal
string of the size as the `X-file-size` header value. -/
theorem c8_header_size (tmpl : List Char) (size : Nat) (outfile : List Char) :
    (chars "<FilesMatch \"graph_n4j\\.bin\\.br\">\n    Header append X-file-size \""
        ++ natToStr size ++ chars "\"\n</FilesMatch>")
      <:+: generate tmpl size outfile := by
  have h1 : fragPart1
      = chars "\n"
        ++ chars "<FilesMatch \"graph_n4j\\.bin\\.br\">\n    Header append X-file-size \"" := by
    decide
  have h2 : fragPart2
      = chars "\"\n</FilesMatch>"
        ++ chars "\n<FilesMatch \"(index\\.html)|(viewer-.*\\.js)\">\n\tHeader set Pragma \"no-cache\"\n</FilesMatch>\nRewriteEngine On\nRewriteRule viewer_bg\\.wasm$ " := by
    decide
  refine ⟨tmpl ++ chars "\n",
    chars "\n<FilesMatch \"(index\\.html)|(viewer-.*\\.js)\">\n\tHeader set Pragma \"no-cache\"\n</FilesMatch>\nRewriteEngine On\nRewriteRule viewer_bg\\.wasm$ "
      ++ outfile ++ fragPart3 ++ outfile ++ fragPart4, ?_⟩
  simp only [generate, fragment, h1, h2, List.append_assoc]

end Deploy

namespace Deploy

/-! Association-list lemmas for the destination directory. -/

theorem lookup_upsert_self (d : Dir) (k v : List Char) :
    lookup (upsert d k v) k = some v := by
  induction d with
  | nil => simp [upsert, lookup]
  | cons p rest ih =>
    by_cases h : p.1 = k
    · simp [upsert, h, lookup]
    · simp [upsert, h, lookup, ih]

theorem lookup_upsert_ne (d : Dir) {k k' : List Char} (v : List Char) (h : k' ≠ k) :
    lookup (upsert d k v) k' = lookup d k' := by
  induction d with
  | nil => simp [upsert, lookup, Ne.symm h]
  | cons p rest ih =>
    by_cases hp : p.1 = k
    · subst hp
      simp [upsert, lookup, Ne.symm h]
    · simp only [upsert, if_neg hp]
      by_cases hp' : p.1 = k'
      · simp [lookup, hp']
      · simp [lookup, hp', ih]

theorem lookup_mem_of_some {d : Dir} {k v : List Char} (h : lookup d k = some v) :
    k ∈ d.map Prod.fst := by
  induction d with
  | nil => simp [lookup] at h
  | cons p rest ih =>
    by_cases hp : p.1 = k
    · simp [hp]
    · rw [lookup, if_neg hp] at h
      simp [ih h]

theorem lookup_eq_none_of_not_mem {d : Dir} {k : List Char}
    (h : k ∉ d.map Prod.fst) : lookup d k = none := by
  induction d with
  | nil => rfl
  | cons p rest ih =>
    simp only [List.map_cons, List.mem_cons, not_or] at h
    rw [lookup, if_neg (fun hh => h.1 hh.symm)]
    exact ih h.2

theorem lookup_of_mem_nodup {d : Dir} {k v : List Char}
    (hmem : (k, v) ∈ d) (hnd : (d.map Prod.fst).Nodup) : lookup d k = some v := by
  induction d with
  | nil => simp at hmem
  | cons p rest ih =>
    simp only [List.map_cons, List.nodup_cons] at hnd
    rcases List.mem_cons.mp hmem with he | hm
    · subst he
      simp [lookup]
    · have hk : p.1 ≠ k := by
        intro hh
        exact hnd.1 (hh ▸ (List.mem_map.mpr ⟨(k, v), hm, rfl⟩))
      rw [lookup, if_neg hk]
      exact ih hm hnd.2

theorem copyInto_cons (p : Entry) (s d : Dir) :
    copyInto (p :: s) d = copyInto s (upsert d p.1 p.2) := rfl

theorem lookup_copyInto (src : Dir) (d : Dir) (k : List Char)
    (hnd : (src.map Prod.fst).Nodup) :
    lookup (copyInto src d) k
      = match lookup src k with
        | some v => some v
        | none => lookup d k := by
  induction src generalizing d with
  | nil => rfl
  | cons p s ih =>
    simp only [List.map_cons, List.nodup_cons] at hnd
    rw [copyInto_cons, ih _ hnd.2]
    by_cases hp : p.1 = k
    · subst hp
      have hs : lookup s p.1 = none := by
        apply lookup_eq_none_of_not_mem
        exact hnd.1
      rw [hs, lookup, if_pos rfl, lookup_upsert_self]
    · rw [lookup, if_neg hp]
      cases hls : lookup s k with
      | some v => rfl
      | none => rw [lookup_upsert_ne _ _ (fun hh => hp hh.symm)]

theorem lookup_filter_slash (d : Dir) {k : List Char} (h : hasSlash k = false) :
    lookup (d.filter (fun p => hasSlash p.1)) k = none := by
  induction d with
  | nil => rfl
  | cons p rest ih =>
    rw [List.filter_cons]
    by_cases hp : hasSlash p.1
    · have hne : p.1 ≠ k := by
        intro hh
        rw [hh, h] at hp
        exact absurd hp Bool.false_ne_true
      rw [if_pos hp, lookup, if_neg hne]
      exact ih
    · rw [if_neg hp]
      exact ih

/-! Success-path corollaries of `tryBody_success` at the pipeline level. -/

theorem runPipeline_success_destFiles (inj : Inject) (fs0 : FS) (f : List Char)
    (h1 : inj.sizeReadFails = false) (h2 : inj.buildExit = 0) (h3 : inj.delExit = 0)
    (h4 : inj.copyDistExit = 0) (h5 : inj.copyAssetsExit = 0) (h6 : inj.genFails = false)
    (hf : findWasm (fs0.distFiles.map Prod.fst) = some f) :
    (runPipeline inj fs0).2.1.destFiles
      = upsert
          (copyInto fs0.assetFiles (copyInto fs0.distFiles
            (fs0.destFiles.filter (fun p => hasSlash p.1))))
          htaccessName
          (generate fs0.htaccessTemplate fs0.binSize (stemOf f)) := by
  rw [runPipeline_eq,
    tryBody_success inj { fs0 with config := (ensurePatched fs0.config).1 } f
      h1 h2 h3 h4 h5 h6 hf,
    runFinally_some _ _ rfl]

theorem runPipeline_success_trace (inj : Inject) (fs0 : FS) (f : List Char)
    (h1 : inj.sizeReadFails = false) (h2 : inj.buildExit = 0) (h3 : inj.delExit = 0)
    (h4 : inj.copyDistExit = 0) (h5 : inj.copyAssetsExit = 0) (h6 : inj.genFails = false)
    (hf : findWasm (fs0.distFiles.map Prod.fst) = some f) :
    (runPipeline inj fs0).2.2
      = (if (ensurePatched fs0.config).2 then [Event.patch] else [])
        ++ [Event.build, Event.clearDest, Event.copyDist, Event.copyAssets, Event.locate,
            Event.generate, Event.restore] := by
  rw [runPipeline_eq,
    tryBody_success inj { fs0 with config := (ensurePatched fs0.config).1 } f
      h1 h2 h3 h4 h5 h6 hf,
    runFinally_some _ _ rfl]
  simp [List.append_assoc]

end Deploy

namespace Deploy

/-- A state left by a prior run: the destination still holds a file inside
a subdirectory, and this run's build output contains a file named
`.htaccess`. -/
def fsStale : FS :=
  { config := [], fileSize := none, binSize := 7,
    distFiles := [(chars "viewer-a_bg.wasm", chars "w"), (htaccessName, chars "D")],
    assetFiles := [],
    destFiles := [(chars "sub/old.txt", chars "o")],
    htaccessTemplate := chars "T" }

/-- C5 (corrected, amendment): after a successful run, every file of the
build-output directory other than one named `.htaccess` exists at the
destination with identical content unless overwritten by a static asset of
the same name; every static-asset file other than one named `.htaccess`
exists at the destination with identical content; the destination's
`.htaccess` holds the generated server configuration; and no file from a
prior run that is absent from both source trees remains *directly under*
the destination (files inside subdirectories of the destination are not
cleared and may survive). -/
theorem c5_destination_mirror (inj : Inject) (fs0 : FS) (f : List Char)
    (h1 : inj.sizeReadFails = false) (h2 : inj.buildExit = 0) (h3 : inj.delExit = 0)
    (h4 : inj.copyDistExit = 0) (h5 : inj.copyAssetsExit = 0) (h6 : inj.genFails = false)
    (hf : findWasm (fs0.distFiles.map Prod.fst) = some f)
    (hndd : (fs0.distFiles.map Prod.fst).Nodup)
    (hnda : (fs0.assetFiles.map Prod.fst).Nodup) :
    (∀ n c, (n, c) ∈ fs0.distFiles → n ≠ htaccessName →
      lookup (runPipeline inj fs0).2.1.destFiles n
        = some ((lookup fs0.assetFiles n).getD c))
    ∧ (∀ n c, (n, c) ∈ fs0.assetFiles → n ≠ htaccessName →
      lookup (runPipeline inj fs0).2.1.destFiles n = some c)
    ∧ lookup (runPipeline inj fs0).2.1.destFiles htaccessName
        = some (generate fs0.htaccessTemplate fs0.binSize (stemOf f))
    ∧ (∀ n, hasSlash n = false → n ∉ fs0.distFiles.map Prod.fst →
        n ∉ fs0.assetFiles.map Prod.fst → n ≠ htaccessName →
        lookup (runPipeline inj fs0).2.1.destFiles n = none) := by
  rw [runPipeline_success_destFiles inj fs0 f h1 h2 h3 h4 h5 h6 hf]
  refine ⟨?_, ?_, ?_, ?_⟩
  · intro n c hmem hne
    rw [lookup_upsert_ne _ _ hne, lookup_copyInto _ _ _ hnda,
      lookup_copyInto _ _ _ hndd, lookup_of_mem_nodup hmem hndd]
    cases ha : lookup fs0.assetFiles n with
    | none => rfl
    | some a => rfl
  · intro n c hmem hne
    rw [lookup_upsert_ne _ _ hne, lookup_copyInto _ _ _ hnda,
      lookup_of_mem_nodup hmem hnda]
  · rw [lookup_upsert_self]
  · intro n hslash hnd hna hne
    rw [lookup_upsert_ne _ _ hne, lookup_copyInto _ _ _ hnda,
      lookup_eq_none_of_not_mem hna, lookup_copyInto _ _ _ hndd,
      lookup_eq_none_of_not_mem hnd, lookup_filter_slash _ hslash]

set_option maxRecDepth 40000 in
/-- C5 counterexample: in a successful run over `fsStale`, the prior run's
file `sub/old.txt` — absent from both source trees — is still present under
the destination (the `del` clear is non-recursive), and the build-output
file `.htaccess` is not present at the destination with identical content
(the generated server configuration overwrites it). -/
theorem c5_counterexample :
    lookup (runPipeline injNone fsStale).2.1.destFiles (chars "sub/old.txt")
        = some (chars "o")
    ∧ (chars "sub/old.txt") ∉ fsStale.distFiles.map Prod.fst
    ∧ (chars "sub/old.txt") ∉ fsStale.assetFiles.map Prod.fst
    ∧ (htaccessName, chars "D") ∈ fsStale.distFiles
    ∧ lookup (runPipeline injNone fsStale).2.1.destFiles htaccessName
        ≠ some (chars "D") := by
  refine ⟨?_, ?_, ?_, ?_, ?_⟩
  · decide
  · decide
  · decide
  · decide
  · decide

/-- C5 witness: the generated `.htaccess` content at the destination of a
concrete successful run. -/
theorem c5_witness :
    lookup (runPipeline injNone fsPlain).2.1.destFiles htaccessName
      = some (generate fsPlain.htaccessTemplate fsPlain.binSize
          (stemOf (chars "viewer-a_bg.wasm"))) :=
  (c5_destination_mirror injNone fsPlain (chars "viewer-a_bg.wasm")
    rfl rfl rfl rfl rfl rfl rfl (by decide) (by decide)).2.2.1

/-- C6 (corrected, amendment): in every successful run the pipeline steps
execute in the order ConfigPatcher (when the patch applies), then
ArtifactBuilder, then Publisher (destination clear, build-output copy,
assets copy), then ArtifactLocator, then ServerConfigGenerator, with the
restoration step last; in particular artifact discovery occurs *after* the
destination is cleared and the build output is copied to it. -/
theorem c6_step_order (inj : Inject) (fs0 : FS) (f : List Char)
    (h1 : inj.sizeReadFails = false) (h2 : inj.buildExit = 0) (h3 : inj.delExit = 0)
    (h4 : inj.copyDistExit = 0) (h5 : inj.copyAssetsExit = 0) (h6 : inj.genFails = false)
    (hf : findWasm (fs0.distFiles.map Prod.fst) = some f) :
    (runPipeline inj fs0).2.2
      = (if (ensurePatched fs0.config).2 then [Event.patch] else [])
        ++ [Event.build, Event.clearDest, Event.copyDist, Event.copyAssets, Event.locate,
            Event.generate, Event.restore] :=
  runPipeline_success_trace inj fs0 f h1 h2 h3 h4 h5 h6 hf

set_option maxRecDepth 40000 in
/-- C6 counterexample: the event trace of a concrete successful run places
the destination clear (and both copies) *before* artifact discovery,
contradicting the claimed ConfigPatcher → ArtifactBuilder → ArtifactLocator
→ Publisher → ServerConfigGenerator order. -/
theorem c6_counterexample :
    (runPipeline injNone fsPlain).2.2
      = [Event.patch, Event.build, Event.clearDest, Event.copyDist, Event.copyAssets,
         Event.locate, Event.generate, Event.restore]
    ∧ (runPipeline injNone fsPlain).2.2.indexOf Event.clearDest
        < (runPipeline injNone fsPlain).2.2.indexOf Event.locate := by
  constructor
  · decide
  · decide

/-- C6 witness: the amended order at a concrete successful run. -/
theorem c6_witness :
    (runPipeline injNone fsPlain).2.2
      = (if (ensurePatched fsPlain.config).2 then [Event.patch] else [])
        ++ [Event.build, Event.clearDest, Event.copyDist, Event.copyAssets, Event.locate,
            Event.generate, Event.restore] :=
  c6_step_order injNone fsPlain (chars "viewer-a_bg.wasm")
    rfl rfl rfl rfl rfl rfl rfl

end Deploy
